import Mathlib

/-!
Shallow embedding of the contacts-book REST API (FastAPI + SQLAlchemy).

The database is modelled as a list of rows; one request handler is one
function from inputs and the current store to a result and the new store.
Python exceptions that the handlers can raise (sqlalchemy NoResultFound /
MultipleResultsFound, AttributeError on `None`) are modelled explicitly
with `Except` / an `Outcome` sum, because several claims are about which
of these paths is taken.
-/

/-- Calendar date (the `birthday` column has no time component). -/
structure Date where
  year : Nat
  month : Nat
  day : Nat
deriving DecidableEq

/-- Gregorian leap-year rule, as Python `datetime` uses it. -/
def isLeap (y : Nat) : Bool := y % 4 == 0 && (y % 100 != 0 || y % 400 == 0)

def daysInMonth (y m : Nat) : Nat :=
  if m == 2 then (if isLeap y then 29 else 28)
  else if m == 4 || m == 6 || m == 9 || m == 11 then 30
  else 31

def Date.nextDay (d : Date) : Date :=
  if d.day < daysInMonth d.year d.month then ⟨d.year, d.month, d.day + 1⟩
  else if d.month < 12 then ⟨d.year, d.month + 1, 1⟩
  else ⟨d.year + 1, 1, 1⟩

/-- `d + timedelta(days := n)`. -/
def Date.addDays (d : Date) : Nat → Date
  | 0 => d
  | n + 1 => Date.nextDay (Date.addDays d n)

/-- A stored attribute value as the Python code leaves it: either a plain
value, or a one-element tuple `(v,)` — which is what the trailing-comma
assignments in `update_contact` produce (`contact.first_name = body.first_name,`). -/
inductive Cell (α : Type) where
  | val : α → Cell α
  | tup : α → Cell α
deriving DecidableEq

/-- The Python exceptions the embedded handlers can raise. -/
inductive PyExn where
  | noResultFound
  | multipleResultsFound
  | attributeError
deriving DecidableEq

/-- `Result.scalar_one()`: exactly one row or an exception. -/
def scalar_one {α : Type} (l : List α) : Except PyExn α :=
  match l with
  | [] => .error .noResultFound
  | [a] => .ok a
  | _ => .error .multipleResultsFound

/-- `Result.scalar_one_or_none()`: at most one row or an exception. -/
def scalar_one_or_none {α : Type} (l : List α) : Except PyExn (Option α) :=
  match l with
  | [] => .ok none
  | [a] => .ok (some a)
  | _ => .error .multipleResultsFound

/-- SQL `LIKE '%pat%'` (SQLAlchemy `Column.contains`): case-sensitive
substring containment. -/
def str_contains (hay pat : String) : Bool :=
  (List.range (hay.data.length + 1)).any fun i =>
    (hay.data.drop i).take pat.data.length == pat.data

/-- `Column.contains` applied to a stored text cell.  A tuple-valued cell
cannot be bound into a SQL comparison at all (the driver rejects it), so
no row with a tuple cell can match; the case is unreachable for stores
that only ever held plain values. -/
def cellContains (c : Cell String) (s : String) : Bool :=
  match c with
  | .val v => str_contains v s
  | .tup _ => false

/-- A row of the `contacts` table.

Modelled from the spec: `src/database/models.py` is not part of the
sources; §3 gives the columns and §9 observes that contacts are created
with no owner, so `user_id` is a nullable foreign key defaulting to null. -/
structure Contact where
  id : Nat
  user_id : Option Nat
  first_name : Cell String
  last_name : Cell String
  email : Cell String
  phone : Cell String
  birthday : Cell Date
  additional_note : Cell (Option String)
deriving DecidableEq

/-- The `ContactModel` request payload (pydantic schema). -/
structure ContactModel where
  first_name : String
  last_name : String
  email : String
  phone : String
  birthday : Date
  additional_note : Option String
deriving DecidableEq

/-- Autoincrement primary key assigned by the database on insert. -/
def next_id (db : List Contact) : Nat := db.foldr (fun c m => max c.id m) 0 + 1

/-- `repository.contacts.get_contacts`: owner filter, then the three
optional `contains` filters (each skipped when the argument is absent or
empty, per Python truthiness of `if name:`), then `offset(skip).limit(limit)`. -/
def get_contacts (skip limit : Nat) (db : List Contact) (user_id : Nat)
    (name surname email : Option String) : List Contact :=
  let l0 := db.filter fun c => c.user_id == some user_id
  let l1 := match name with
    | none => l0
    | some s => if s = "" then l0 else l0.filter fun c => cellContains c.first_name s
  let l2 := match surname with
    | none => l1
    | some s => if s = "" then l1 else l1.filter fun c => cellContains c.last_name s
  let l3 := match email with
    | none => l2
    | some s => if s = "" then l2 else l2.filter fun c => cellContains c.email s
  (l3.drop skip).take limit

/-- `repository.contacts.get_upcoming_birthdays`: four independent
month/day comparisons against `today` and `today + 7 days`; note there is
no `user_id` condition in the source query. -/
def get_upcoming_birthdays (today : Date) (db : List Contact) : List Contact :=
  let in_one_week := today.addDays 7
  db.filter fun c =>
    match c.birthday with
    | .val b =>
        decide (today.month ≤ b.month) && decide (today.day ≤ b.day)
          && decide (b.month ≤ in_one_week.month) && decide (b.day ≤ in_one_week.day)
    | .tup _ => false

/-- `repository.contacts.get_contact`: owner-scoped lookup finished with
`scalar_one()`, which raises `NoResultFound` when no row matches. -/
def get_contact (contact_id user_id : Nat) (db : List Contact) : Except PyExn Contact :=
  scalar_one (db.filter fun c => c.user_id == some user_id && c.id == contact_id)

/-- `repository.contacts.create_contact`: builds the row from the payload
only — no `user_id` is ever set, so the column keeps its null default. -/
def create_contact (body : ContactModel) (db : List Contact) : Contact × List Contact :=
  let contact : Contact :=
    { id := next_id db, user_id := none,
      first_name := .val body.first_name, last_name := .val body.last_name,
      email := .val body.email, phone := .val body.phone,
      birthday := .val body.birthday, additional_note := .val body.additional_note }
  (contact, db ++ [contact])

/-- `repository.contacts.update_contact`: owner-scoped fetch with
`scalar_one_or_none`, then field assignments.  Every assignment except
`additional_note` ends in a trailing comma in the source, so those five
attributes are set to one-element tuples `(value,)`. -/
def update_contact (contact_id user_id : Nat) (body : ContactModel) (db : List Contact) :
    Except PyExn (Option Contact × List Contact) :=
  match scalar_one_or_none (db.filter fun c => c.user_id == some user_id && c.id == contact_id) with
  | .error e => .error e
  | .ok none => .ok (none, db)
  | .ok (some c) =>
    let c2 : Contact :=
      { c with
        first_name := .tup body.first_name, last_name := .tup body.last_name,
        email := .tup body.email, phone := .tup body.phone,
        birthday := .tup body.birthday, additional_note := .val body.additional_note }
    .ok (some c2, db.map fun x => if x.user_id == some user_id && x.id == contact_id then c2 else x)

/-- A row of the `users` table.

Modelled from the spec: `src/database/models.py` is not part of the
sources; §3 gives the columns — `is_confirmed` defaults to false,
`avatar` and `refresh_token` are nullable.  The `role` column is not
needed by any embedded operation. -/
structure User where
  id : Nat
  email : String
  username : String
  password : String
  avatar : Option String
  is_confirmed : Bool
  refresh_token : Option String
deriving DecidableEq

/-- The `UserSchema` signup payload. -/
structure UserSchema where
  email : String
  username : String
  password : String
deriving DecidableEq

/-- The `TokenSchema` response body. -/
structure TokenSchema where
  access_token : String
  refresh_token : String
  token_type : String
deriving DecidableEq

/-- What a route handler produces: a value, an `HTTPException` with a
status code and detail message, or an uncaught Python exception that
escapes the handler (surfaced by the framework as a generic 500, not as
any of the API error kinds). -/
inductive Outcome (α : Type) where
  | ok : α → Outcome α
  | httpException : Nat → String → Outcome α
  | raised : PyExn → Outcome α
deriving DecidableEq

/-- `repository.users.get_user_by_email`: `filter_by(email=email)` then
`scalar_one_or_none()`. -/
def get_user_by_email (email : String) (db : List User) : Except PyExn (Option User) :=
  scalar_one_or_none (db.filter fun u => u.email == email)

def next_user_id (db : List User) : Nat := db.foldr (fun u m => max u.id m) 0 + 1

/-- `repository.users.create_user`: the Gravatar lookup is wrapped in
`try/except Exception` with the error printed and swallowed, leaving
`avatar = None`; the user row is inserted either way.  The collaborator
outcome is passed in as an `Except` value. -/
def create_user (body : UserSchema) (gravatar : Except String String) (db : List User) :
    User × List User :=
  let avatar : Option String :=
    match gravatar with
    | .ok url => some url
    | .error _ => none
  let new_user : User :=
    { id := next_user_id db, email := body.email, username := body.username,
      password := body.password, avatar := avatar,
      is_confirmed := false, refresh_token := none }
  (new_user, db ++ [new_user])

/-- `repository.users.update_token`: sets `user.refresh_token = token`
on the fetched row and commits.  The mutated object is the row the
caller fetched by email, so the store update replaces that row. -/
def update_token (user : User) (token : Option String) (db : List User) : List User :=
  db.map fun u => if u.email == user.email then { u with refresh_token := token } else u

/-- The per-row effect of `confirmed_email`'s `user.is_confirmed = True`:
the row fetched by email gets its flag set, every other row is untouched. -/
def confirm_flag (email : String) (u : User) : User :=
  if u.email == email then { u with is_confirmed := true } else u

/-- `repository.users.confirmed_email`: fetches the user by email and
sets `is_confirmed = True`.  When no user exists, `user.is_confirmed`
is an attribute access on `None` and raises. -/
def confirmed_email (email : String) (db : List User) : Except PyExn (List User) :=
  match get_user_by_email email db with
  | .error e => .error e
  | .ok none => .error .attributeError
  | .ok (some _) => .ok (db.map (confirm_flag email))

/-- `routes.auth.login`: 401 on unknown email, unconfirmed email or wrong
password; otherwise issues tokens and rotates the stored refresh token.
Password hashing/verification and token minting are collaborator calls
(`auth_service`), passed in as parameters. -/
def login (username password : String) (verify : String → String → Bool)
    (access_tok refresh_tok : String) (db : List User) : Outcome TokenSchema × List User :=
  match get_user_by_email username db with
  | .error e => (.raised e, db)
  | .ok none => (.httpException 401 "Invalid email", db)
  | .ok (some user) =>
    if user.is_confirmed = false then (.httpException 401 "Email not confirmed", db)
    else if verify password user.password = false then (.httpException 401 "Invalid password", db)
    else (.ok ⟨access_tok, refresh_tok, "bearer"⟩, update_token user (some refresh_tok) db)

/-- `routes.auth.refresh_token`: decodes the email out of the presented
refresh token (`email_of`, a collaborator), fetches the user, clears the
stored token and answers 401 when the presented token differs from the
stored one, otherwise rotates the stored token to the newly issued one.
A lookup miss dereferences `user.refresh_token` on `None` and raises. -/
def refresh_token (token : String) (email_of : String → String)
    (access_tok new_refresh : String) (db : List User) : Outcome TokenSchema × List User :=
  match get_user_by_email (email_of token) db with
  | .error e => (.raised e, db)
  | .ok none => (.raised .attributeError, db)
  | .ok (some user) =>
    if user.refresh_token ≠ some token then
      (.httpException 401 "Invalid refresh token", update_token user none db)
    else
      (.ok ⟨access_tok, new_refresh, "bearer"⟩, update_token user (some new_refresh) db)

/-- `routes.auth.request_email`: the handler reads `user.is_confirmed`
on the lookup result *before* the `if user:` guard, so an unknown email
raises `AttributeError` on `None` and the guard is never reached.  The
boolean in the result records whether a confirmation mail was enqueued. -/
def request_email (email : String) (db : List User) : Outcome (String × Bool) :=
  match get_user_by_email email db with
  | .error e => .raised e
  | .ok none => .raised .attributeError
  | .ok (some user) =>
    if user.is_confirmed then .ok ("Your email is already confirmed", false)
    else .ok ("Check your email for confirmation.", true)

/-- `routes.contacts.birthdays`: resolves the authenticated user but then
calls `get_upcoming_birthdays(db)` without passing it, so the query is
not scoped to the caller. -/
def birthdays (user : User) (today : Date) (db : List Contact) : List Contact :=
  get_upcoming_birthdays today db

/-- `routes.contacts.read_contact`: delegates to `get_contact` and has an
`if contact is None: raise 404` branch — but `scalar_one()` either
returns a row or raises, so the 404 branch is unreachable and a miss
escapes as the raised exception. -/
def read_contact (contact_id : Nat) (user : User) (db : List Contact) : Outcome Contact :=
  match get_contact contact_id user.id db with
  | .error e => .raised e
  | .ok c => .ok c

/-- `routes.contacts.create_contact`: resolves the authenticated user but
calls the repository with the payload only. -/
def create_contact_route (body : ContactModel) (user : User) (db : List Contact) :
    Contact × List Contact :=
  create_contact body db

/-! ### Concrete stores used by the per-claim evaluations -/

/-- A contact owned by user 1 whose birthday falls in the week after
2024-06-10. -/
def c1_contact : Contact :=
  ⟨1, some 1, .val "Ann", .val "Lee", .val "ann@x", .val "555", .val ⟨1990, 6, 12⟩, .val none⟩

/-- A second authenticated user, distinct from the contact owner. -/
def c1_userB : User := ⟨2, "b@x", "bob", "h", none, true, none⟩

def c3_row : Contact :=
  ⟨1, some 1, .val "A", .val "B", .val "a@x", .val "1", .val ⟨1980, 2, 3⟩, .val none⟩

def c3_body : ContactModel := ⟨"John", "Doe", "j@x", "999", ⟨1991, 5, 6⟩, some "n"⟩

/-- The row `update_contact` actually stores for `c3_row` and `c3_body`:
five tuple-valued cells and a plain note. -/
def c3_row2 : Contact :=
  { c3_row with
    first_name := .tup "John", last_name := .tup "Doe", email := .tup "j@x",
    phone := .tup "999", birthday := .tup ⟨1991, 5, 6⟩,
    additional_note := .val (some "n") }

def c4_june30 : Contact :=
  ⟨1, some 1, .val "A", .val "B", .val "a@x", .val "1", .val ⟨1990, 6, 30⟩, .val none⟩

def c4_july10 : Contact :=
  ⟨2, some 1, .val "C", .val "D", .val "c@x", .val "2", .val ⟨1985, 7, 10⟩, .val none⟩

def c5_contact : Contact :=
  ⟨1, some 1, .val "Ann", .val "Lee", .val "ann@x", .val "555", .val ⟨1990, 1, 1⟩, .val none⟩

def c5_userB : User := ⟨2, "b@x", "bob", "h", none, true, none⟩

def c6_user : User := ⟨1, "a@x", "alice", "h", none, true, some "r0"⟩

/-- Concrete stand-in for `auth_service.verify_password`. -/
def c6_veq : String → String → Bool := fun p h => p == h

/-- Concrete stand-in for `auth_service.get_email_form_refresh_token`. -/
def c6_email_of : String → String := fun _ => "a@x"

def c7_user : User := ⟨1, "c@x", "carol", "h", none, false, none⟩

/-- Spec-side description of the list filters, written from the spec's
words: the owner's contacts whose fields contain the supplied substrings
(case-sensitive, all supplied filters ANDed).  Compared below against the
incrementally built query of `get_contacts`. -/
def matches_filters (user_id : Nat) (name surname email : Option String) (c : Contact) : Bool :=
  c.user_id == some user_id
    && (match name with | none => true | some s => cellContains c.first_name s)
    && (match surname with | none => true | some s => cellContains c.last_name s)
    && (match email with | none => true | some s => cellContains c.email s)

def c8_john : Contact :=
  ⟨1, some 1, .val "John", .val "Smith", .val "j@x", .val "1", .val ⟨1990, 1, 1⟩, .val none⟩

def c8_joanna : Contact :=
  ⟨2, some 1, .val "Joanna", .val "Stone", .val "jo@x", .val "2", .val ⟨1991, 2, 2⟩, .val none⟩

def c8_mark : Contact :=
  ⟨3, some 1, .val "Mark", .val "Hill", .val "m@x", .val "3", .val ⟨1992, 3, 3⟩, .val none⟩

/-! ### Claims -/

/-- Pointwise-equal predicates filter alike. -/
theorem filter_ext {α : Type} (p q : α → Bool) (l : List α)
    (h : ∀ a, a ∈ l → p a = q a) : l.filter p = l.filter q := by
  induction l with
  | nil => rfl
  | cons x xs ih =>
    rw [List.filter_cons, List.filter_cons, h x (List.mem_cons_self x xs),
      ih (fun a ha => h a (List.mem_cons_of_mem x ha))]

/-- Two successive filters are one filter on the conjunction. -/
theorem filter_and {α : Type} (p q : α → Bool) (l : List α) :
    (l.filter p).filter q = l.filter fun a => p a && q a := by
  induction l with
  | nil => rfl
  | cons x xs ih =>
    cases hp : p x <;> cases hq : q x <;>
      simp [List.filter_cons, hp, hq, ih]

/-- `scalar_one_or_none` answers `some a` exactly on the singleton row. -/
theorem scalar_one_or_none_eq_some {α : Type} (l : List α) (a : α) :
    scalar_one_or_none l = .ok (some a) ↔ l = [a] := by
  match l with
  | [] => simp [scalar_one_or_none]
  | [x] => simp [scalar_one_or_none]
  | x :: y :: r => simp [scalar_one_or_none]

/-- Filtering by email commutes with mapping an email-preserving row
update over the store. -/
theorem filter_email_map (g : User → User) (hg : ∀ v, (g v).email = v.email)
    (e : String) (db : List User) :
    (db.map g).filter (fun v => v.email == e) = (db.filter (fun v => v.email == e)).map g := by
  induction db with
  | nil => rfl
  | cons v l ih =>
    by_cases h : v.email = e <;>
      simp [List.filter_cons, hg v, h, ih]

/-- Mapping a pointwise-idempotent row update twice is mapping it once. -/
theorem map_row_idem (g : User → User) (hgg : ∀ v, g (g v) = g v) (db : List User) :
    (db.map g).map g = db.map g := by
  induction db with
  | nil => rfl
  | cons v l ih => simp [hgg v, ih]

/-- After `update_token`, looking the user up by email finds the same row
with the new refresh token. -/
theorem get_user_by_email_update_token (u : User) (t : Option String) (db : List User)
    (hu : get_user_by_email u.email db = .ok (some u)) :
    get_user_by_email u.email (update_token u t db) =
      .ok (some { u with refresh_token := t }) := by
  have hg : ∀ v : User,
      ((if v.email == u.email then { v with refresh_token := t } else v) : User).email
        = v.email := by
    intro v; by_cases h : v.email == u.email <;> simp [h]
  have hdb : db.filter (fun v => v.email == u.email) = [u] :=
    (scalar_one_or_none_eq_some _ _).1 hu
  unfold get_user_by_email update_token
  rw [filter_email_map _ hg, hdb]
  simp [scalar_one_or_none]

/-- C1: the spec invariant says no cross-user access path exists and that
the birthdays endpoint invoked on behalf of user B returns only contacts
with `user_id = B.id`.  Evaluating the code: user 2 calls the birthdays
endpoint on 2024-06-10 over a store holding only a contact owned by
user 1, and that contact is returned. -/
theorem birthdays_leaks_cross_user :
    birthdays c1_userB ⟨2024, 6, 10⟩ [c1_contact] = [c1_contact] ∧
    c1_contact.user_id ≠ some c1_userB.id := by
  exact ⟨by decide, by decide⟩

/-- C2: the claim says contact creation attaches the authenticated
caller's id as owner.  Evaluating the code: for every caller and payload
the created row's `user_id` is null, never `some user.id`. -/
theorem create_contact_ignores_caller (body : ContactModel) (user : User) (db : List Contact) :
    (create_contact_route body user db).1.user_id = none ∧
    (none : Option Nat) ≠ some user.id := by
  exact ⟨rfl, by simp⟩

/-- C3: the claim says update-then-get returns a record field-for-field
equal to the payload.  Evaluating the code at a concrete row and payload:
the stored and returned record has `(value,)` tuples in the five
comma-terminated fields, so `first_name` differs from the payload value
(while id and owner are indeed unchanged). -/
theorem update_then_get_stores_tuples :
    update_contact 1 1 c3_body [c3_row] = .ok (some c3_row2, [c3_row2]) ∧
    get_contact 1 1 [c3_row2] = .ok c3_row2 ∧
    c3_row2.first_name ≠ .val c3_body.first_name ∧
    c3_row2.id = c3_row.id ∧ c3_row2.user_id = c3_row.user_id := by
  exact ⟨rfl, rfl, by decide, rfl, rfl⟩

/-- C4: the claim says the upcoming-birthdays query on today = 2024-06-25
includes a 06-30 birthday and excludes a 07-10 one.  Evaluating the code:
the window runs to 2024-07-02, and the conjunct `day(birthday) ≤ 2`
rejects the 06-30 contact as well, so the query returns neither. -/
theorem upcoming_birthdays_excludes_june30 :
    get_upcoming_birthdays ⟨2024, 6, 25⟩ [c4_june30, c4_july10] = [] ∧
    Date.addDays ⟨2024, 6, 25⟩ 7 = ⟨2024, 7, 2⟩ := by
  exact ⟨by decide, by decide⟩

/-- C5: the claim says a lookup of an absent or foreign-owned contact
yields the distinct not-found error kind.  Evaluating the code: user 2
reading contact 1 (owned by user 1) makes `scalar_one()` raise
`NoResultFound`, which escapes the handler as a generic failure — the
handler's 404 branch never fires. -/
theorem read_contact_raises_generic :
    read_contact 1 c5_userB [c5_contact] = .raised .noResultFound ∧
    read_contact 1 c5_userB [c5_contact] ≠ .httpException 404 "Contact not found" := by
  exact ⟨rfl, by decide⟩

/-- C9: a failing avatar lookup leaves the created user with a null
avatar and never aborts creation — the row is still appended to the
store and returned. -/
theorem create_user_avatar_best_effort (body : UserSchema) (e : String) (db : List User) :
    (create_user body (.error e) db).1.avatar = none ∧
    (create_user body (.error e) db).2 = db ++ [(create_user body (.error e) db).1] := by
  exact ⟨rfl, rfl⟩

/-- C10: for every email with no registered user, `request_email`
dereferences `is_confirmed` on `None` before the `if user:` guard runs,
so the call raises `AttributeError` instead of returning any defined
response. -/
theorem request_email_missing_user_raises (email : String) (db : List User)
    (h : get_user_by_email email db = .ok none) :
    request_email email db = .raised .attributeError := by
  unfold request_email
  rw [h]

/-- Witness for C10 at a concrete input: the empty user directory. -/
theorem request_email_missing_user_raises_witness :
    request_email "ghost@x" [] = .raised .attributeError :=
  request_email_missing_user_raises "ghost@x" [] (by rfl)

/-- C6: for every user, the stored refresh_token is replaced with the
newly issued token on every successful login and on every successful
refresh, and is cleared to null (forced logout) when the refresh
operation is presented a token that differs from the stored one. -/
theorem refresh_token_rotation (u : User) (db : List User)
    (pw access_tok new_rt presented : String)
    (verify : String → String → Bool) (email_of : String → String)
    (hu : get_user_by_email u.email db = .ok (some u))
    (hemail : email_of presented = u.email) :
    (u.is_confirmed = true → verify pw u.password = true →
      login u.email pw verify access_tok new_rt db =
        (.ok ⟨access_tok, new_rt, "bearer"⟩, update_token u (some new_rt) db) ∧
      get_user_by_email u.email (update_token u (some new_rt) db) =
        .ok (some { u with refresh_token := some new_rt })) ∧
    (u.refresh_token = some presented →
      refresh_token presented email_of access_tok new_rt db =
        (.ok ⟨access_tok, new_rt, "bearer"⟩, update_token u (some new_rt) db) ∧
      get_user_by_email u.email (update_token u (some new_rt) db) =
        .ok (some { u with refresh_token := some new_rt })) ∧
    (u.refresh_token ≠ some presented →
      refresh_token presented email_of access_tok new_rt db =
        (.httpException 401 "Invalid refresh token", update_token u none db) ∧
      get_user_by_email u.email (update_token u none db) =
        .ok (some { u with refresh_token := none })) := by
  refine ⟨?_, ?_, ?_⟩
  · intro h1 h2
    refine ⟨?_, get_user_by_email_update_token u (some new_rt) db hu⟩
    unfold login
    rw [hu]
    simp [h1, h2]
  · intro h
    refine ⟨?_, get_user_by_email_update_token u (some new_rt) db hu⟩
    unfold refresh_token
    rw [hemail, hu]
    simp [h]
  · intro h
    refine ⟨?_, get_user_by_email_update_token u none db hu⟩
    unfold refresh_token
    rw [hemail, hu]
    simp [h]

/-- Witness for C6 at a concrete user: a successful login, a successful
refresh with the matching stored token, and a refresh with a stale token. -/
theorem refresh_token_rotation_witness :
    login "a@x" "h" c6_veq "A" "R" [c6_user] =
      (.ok ⟨"A", "R", "bearer"⟩, update_token c6_user (some "R") [c6_user]) ∧
    refresh_token "r0" c6_email_of "A" "R" [c6_user] =
      (.ok ⟨"A", "R", "bearer"⟩, update_token c6_user (some "R") [c6_user]) ∧
    refresh_token "bad" c6_email_of "A" "R" [c6_user] =
      (.httpException 401 "Invalid refresh token", update_token c6_user none [c6_user]) ∧
    get_user_by_email "a@x" (update_token c6_user (some "R") [c6_user]) =
      .ok (some { c6_user with refresh_token := some "R" }) := by
  have h1 := refresh_token_rotation c6_user [c6_user] "h" "A" "R" "r0" c6_veq c6_email_of
    (by rfl) (by rfl)
  have h2 := refresh_token_rotation c6_user [c6_user] "h" "A" "R" "bad" c6_veq c6_email_of
    (by rfl) (by rfl)
  exact ⟨(h1.1 (by rfl) (by rfl)).1, (h1.2.1 (by rfl)).1, (h2.2.2 (by decide)).1,
    (h1.1 (by rfl) (by rfl)).2⟩

/-- `confirm_flag` does not change the email column. -/
theorem confirm_flag_email (email : String) (v : User) :
    (confirm_flag email v).email = v.email := by
  by_cases h : v.email == email <;> simp [confirm_flag, h]

/-- `confirm_flag` is idempotent on a row. -/
theorem confirm_flag_idem (email : String) (v : User) :
    confirm_flag email (confirm_flag email v) = confirm_flag email v := by
  by_cases h : v.email = email <;> simp [confirm_flag, h]

/-- C7: for every registered user, calling `confirmed_email` twice leaves
`is_confirmed = true`, and the second call succeeds without error and
changes nothing (confirmation is idempotent). -/
theorem confirmed_email_idempotent (email : String) (db : List User) (u : User)
    (hu : get_user_by_email email db = .ok (some u)) :
    ∃ db1, confirmed_email email db = .ok db1 ∧
      confirmed_email email db1 = .ok db1 ∧
      ∀ v ∈ db1, v.email = email → v.is_confirmed = true := by
  have hdb : db.filter (fun v => v.email == email) = [u] :=
    (scalar_one_or_none_eq_some _ _).1 hu
  refine ⟨db.map (confirm_flag email), ?_, ?_, ?_⟩
  · unfold confirmed_email
    rw [hu]
  · have h2 : get_user_by_email email (db.map (confirm_flag email)) =
        .ok (some (confirm_flag email u)) := by
      unfold get_user_by_email
      rw [filter_email_map (confirm_flag email) (confirm_flag_email email), hdb]
      simp [scalar_one_or_none]
    unfold confirmed_email
    rw [h2, map_row_idem (confirm_flag email) (confirm_flag_idem email)]
  · intro v hv hve
    obtain ⟨w, hw, rfl⟩ := List.mem_map.1 hv
    by_cases h : w.email = email
    · simp [confirm_flag, h]
    · rw [show confirm_flag email w = w by simp [confirm_flag, h]] at hve
      exact absurd hve h

/-- Witness for C7 at a concrete one-user directory. -/
theorem confirmed_email_idempotent_witness :
    ∃ db1, confirmed_email "c@x" [c7_user] = .ok db1 ∧
      confirmed_email "c@x" db1 = .ok db1 ∧
      ∀ v ∈ db1, v.email = "c@x" → v.is_confirmed = true :=
  confirmed_email_idempotent "c@x" [c7_user] c7_user (by rfl)

/-- C8: for every owner and every combination of supplied (non-empty)
name/surname/email filters, `get_contacts` returns exactly the owner's
contacts whose corresponding fields contain the supplied substrings —
case-sensitive, all supplied filters ANDed — windowed by offset and
limit, in store order. -/
theorem get_contacts_spec (skip limit user_id : Nat) (name surname email : Option String)
    (db : List Contact)
    (hn : name ≠ some "") (hs : surname ≠ some "") (he : email ≠ some "") :
    get_contacts skip limit db user_id name surname email =
      ((db.filter (matches_filters user_id name surname email)).drop skip).take limit := by
  rcases name with _ | n
  · rcases surname with _ | s
    · rcases email with _ | e
      · simp only [get_contacts]
        refine congrArg (List.take limit) (congrArg (List.drop skip) (filter_ext _ _ db ?_))
        intro c _
        simp [matches_filters]
      · have he2 : ¬ e = "" := fun h => he (congrArg some h)
        simp only [get_contacts, if_neg he2, filter_and]
        refine congrArg (List.take limit) (congrArg (List.drop skip) (filter_ext _ _ db ?_))
        intro c _
        simp [matches_filters]
    · rcases email with _ | e
      · have hs2 : ¬ s = "" := fun h => hs (congrArg some h)
        simp only [get_contacts, if_neg hs2, filter_and]
        refine congrArg (List.take limit) (congrArg (List.drop skip) (filter_ext _ _ db ?_))
        intro c _
        simp [matches_filters]
      · have hs2 : ¬ s = "" := fun h => hs (congrArg some h)
        have he2 : ¬ e = "" := fun h => he (congrArg some h)
        simp only [get_contacts, if_neg hs2, if_neg he2, filter_and]
        refine congrArg (List.take limit) (congrArg (List.drop skip) (filter_ext _ _ db ?_))
        intro c _
        simp [matches_filters]
  · rcases surname with _ | s
    · rcases email with _ | e
      · have hn2 : ¬ n = "" := fun h => hn (congrArg some h)
        simp only [get_contacts, if_neg hn2, filter_and]
        refine congrArg (List.take limit) (congrArg (List.drop skip) (filter_ext _ _ db ?_))
        intro c _
        simp [matches_filters]
      · have hn2 : ¬ n = "" := fun h => hn (congrArg some h)
        have he2 : ¬ e = "" := fun h => he (congrArg some h)
        simp only [get_contacts, if_neg hn2, if_neg he2, filter_and]
        refine congrArg (List.take limit) (congrArg (List.drop skip) (filter_ext _ _ db ?_))
        intro c _
        simp [matches_filters]
    · rcases email with _ | e
      · have hn2 : ¬ n = "" := fun h => hn (congrArg some h)
        have hs2 : ¬ s = "" := fun h => hs (congrArg some h)
        simp only [get_contacts, if_neg hn2, if_neg hs2, filter_and]
        refine congrArg (List.take limit) (congrArg (List.drop skip) (filter_ext _ _ db ?_))
        intro c _
        simp [matches_filters]
      · have hn2 : ¬ n = "" := fun h => hn (congrArg some h)
        have hs2 : ¬ s = "" := fun h => hs (congrArg some h)
        have he2 : ¬ e = "" := fun h => he (congrArg some h)
        simp only [get_contacts, if_neg hn2, if_neg hs2, if_neg he2, filter_and]
        refine congrArg (List.take limit) (congrArg (List.drop skip) (filter_ext _ _ db ?_))
        intro c _
        simp [matches_filters]

/-- Witness for C8: filter name = "Jo" over the contacts John, Joanna and
Mark of owner 1 returns exactly the first two. -/
theorem get_contacts_spec_witness :
    get_contacts 0 100 [c8_john, c8_joanna, c8_mark] 1 (some "Jo") none none =
      ((([c8_john, c8_joanna, c8_mark].filter
          (matches_filters 1 (some "Jo") none none)).drop 0).take 100) ∧
    (([c8_john, c8_joanna, c8_mark].filter
        (matches_filters 1 (some "Jo") none none)).drop 0).take 100 = [c8_john, c8_joanna] := by
  refine ⟨get_contacts_spec 0 100 1 (some "Jo") none none [c8_john, c8_joanna, c8_mark]
    (by decide) (by decide) (by decide), by decide⟩
